import Mathlib

/-!
Verification development for the SankoSlides backend flow engine
(`app/crew/flows/slide_generation.py`, `app/models/schemas.py`,
`app/crew/agents/helper.py`, `app/api/routers/generation.py`).

The Python source is shallowly embedded: pydantic models become Lean
structures (pydantic `model_dump` followed by re-validation is the identity
on these models, so the database dictionary stores the typed values
directly); mutable in-place updates on shared slide objects are modelled
with an explicit heap of slide records addressed by object ids; calls to
external LLM agents and renderers are parameters (oracles) of the embedded
functions.
-/

namespace Sanko

/-- Pipeline status values (`FlowStatus` enum). -/
inductive FlowStatus
  | synthesizing
  | awaiting_clarification
  | clarification_complete
  | awaiting_outline_approval
  | outline_approved
  | generating
  | qa_in_progress
  | completed
  | failed
deriving DecidableEq, Repr

/-- String value of a `FlowStatus` (the `str` enum value). -/
def FlowStatus.val : FlowStatus → String
  | .synthesizing => "synthesizing"
  | .awaiting_clarification => "awaiting_clarification"
  | .clarification_complete => "clarification_complete"
  | .awaiting_outline_approval => "awaiting_outline_approval"
  | .outline_approved => "outline_approved"
  | .generating => "generating"
  | .qa_in_progress => "qa_in_progress"
  | .completed => "completed"
  | .failed => "failed"

/-- Parse a status string back to the enum (`FlowStatus(value)`);
`none` models the `ValueError` raised on an unknown value. -/
def FlowStatus.ofVal (s : String) : Option FlowStatus :=
  if s = "synthesizing" then some .synthesizing
  else if s = "awaiting_clarification" then some .awaiting_clarification
  else if s = "clarification_complete" then some .clarification_complete
  else if s = "awaiting_outline_approval" then some .awaiting_outline_approval
  else if s = "outline_approved" then some .outline_approved
  else if s = "generating" then some .generating
  else if s = "qa_in_progress" then some .qa_in_progress
  else if s = "completed" then some .completed
  else if s = "failed" then some .failed
  else none

/-- Slide content types (`SlideContentType` enum). -/
inductive SlideContentType
  | title
  | overview
  | content
  | diagram
  | equation
  | image
  | quote
  | two_column
  | section
  | conclusion
deriving DecidableEq, Repr

instance : Inhabited SlideContentType := ⟨.content⟩

/-- `GatheredInfo` (`app/models/schemas.py`): accumulator of extracted
requirements during the clarification phase. -/
structure GatheredInfo where
  has_title : Bool := false
  has_audience : Bool := false
  has_slide_count : Bool := false
  has_focus_areas : Bool := false
  has_emphasis_style : Bool := false
  has_tone : Bool := false
  has_citation_style : Bool := false
  has_references_placement : Bool := false
  has_theme : Bool := false
  has_speaker_notes_pref : Bool := false
  title : Option String := none
  audience : Option String := none
  slide_count : Option Nat := none
  focus_areas : List String := []
  key_topics : List String := []
  emphasis_style : Option String := none
  tone : Option String := none
  citation_style : Option String := none
  references_placement : Option String := none
  theme : Option String := none
  include_speaker_notes : Option Bool := none
  special_requests : Option String := none
  let_agent_decide_title : Bool := false
  let_agent_decide_theme : Bool := false
  let_agent_decide_citation : Bool := false
  confirmation_sent : Bool := false
  user_confirmed : Bool := false
deriving DecidableEq, Repr

instance : Inhabited GatheredInfo := ⟨{}⟩

/-- `GatheredInfo.get_missing_required`: required fields still missing. -/
def GatheredInfo.get_missing_required (i : GatheredInfo) : List String :=
  (if !i.has_title && !i.let_agent_decide_title
    then ["presentation title or topic"] else []) ++
  (if !i.has_audience then ["target audience"] else []) ++
  (if !i.has_slide_count then ["number of slides"] else []) ++
  (if !i.has_focus_areas then ["key focus areas or topics to cover"] else [])

/-- `GatheredInfo.get_missing_optional`: optional fields still missing. -/
def GatheredInfo.get_missing_optional (i : GatheredInfo) : List String :=
  (if !i.has_emphasis_style
    then ["emphasis style (detailed/concise/visual-heavy)"] else []) ++
  (if !i.has_tone then ["tone (academic/casual/technical/persuasive)"] else []) ++
  (if !i.has_citation_style
    then ["citation style (APA/IEEE/Harvard/Chicago)"] else []) ++
  (if !i.has_references_placement
    then ["references placement (distributed/last slide)"] else []) ++
  (if !i.has_theme && !i.let_agent_decide_theme then ["theme preference"] else [])

/-- `GatheredInfo.is_complete_enough`: all required fields gathered. -/
def GatheredInfo.is_complete_enough (i : GatheredInfo) : Bool :=
  i.get_missing_required.length == 0

/-- `GatheredInfo.is_ready_for_confirmation`: required complete and at most
two optional fields missing. -/
def GatheredInfo.is_ready_for_confirmation (i : GatheredInfo) : Bool :=
  (i.get_missing_required.length == 0) && (i.get_missing_optional.length ≤ 2)

/-- `GatheredInfo.needs_confirmation`. -/
def GatheredInfo.needs_confirmation (i : GatheredInfo) : Bool :=
  i.is_ready_for_confirmation && !i.confirmation_sent

/-- `GatheredInfo.is_fully_confirmed`. -/
def GatheredInfo.is_fully_confirmed (i : GatheredInfo) : Bool :=
  i.confirmation_sent && i.user_confirmed

/-- `RetryBudget` (`app/crew/agents/helper.py`): per-agent retry counter.
The Python `Dict[str, int]` together with its always-defaulted reads
(`self.attempts.get(name, 0)`) is modelled as a total map `String → Nat`
defaulting to `0`. -/
structure RetryBudget where
  attempts : String → Nat

/-- Fresh budget (`__init__`: empty dict, every stage reads as 0). -/
def RetryBudget.new : RetryBudget := ⟨fun _ => 0⟩

/-- `RetryBudget.MAX_ATTEMPTS`. -/
def RetryBudget.MAX_ATTEMPTS : Nat := 2

/-- `RetryBudget.can_retry`. -/
def RetryBudget.can_retry (b : RetryBudget) (agent_name : String) : Bool :=
  b.attempts agent_name < RetryBudget.MAX_ATTEMPTS

/-- `RetryBudget.record_attempt`. -/
def RetryBudget.record_attempt (b : RetryBudget) (agent_name : String) : RetryBudget :=
  ⟨fun n => if n = agent_name then b.attempts agent_name + 1 else b.attempts n⟩

/-- `RetryBudget.get_attempts`. -/
def RetryBudget.get_attempts (b : RetryBudget) (agent_name : String) : Nat :=
  b.attempts agent_name

/-- `RetryBudget.reset`: clear one agent's count, or all of them. -/
def RetryBudget.reset (b : RetryBudget) (agent_name : Option String) : RetryBudget :=
  match agent_name with
  | some n => ⟨fun m => if m = n then 0 else b.attempts m⟩
  | none => RetryBudget.new

/-- Observations of the lowercased user message by the fixed regex and
phrase matchers of `SlideGenerationFlow._extract_info_from_message`
(`app/crew/flows/slide_generation.py`).  The message text enters the
extractor only through these matcher results, so the embedding carries the
message as the tuple of match outcomes: one field per matcher of the
source, in source order. -/
structure Msg where
  /-- Some confirmation pattern of `confirmation_patterns` matches. -/
  confirm_match : Bool := false
  /-- Some pattern of `decide_patterns` matches. -/
  decide_match : Bool := false
  /-- The message contains the substring "title" or "topic". -/
  mentions_title_or_topic : Bool := false
  /-- The message contains the substring "theme". -/
  mentions_theme : Bool := false
  /-- The message contains the substring "citation" or "reference". -/
  mentions_citation_or_reference : Bool := false
  /-- Canonical audience of the first matching `audience_patterns` entry. -/
  audience_pattern_value : Option String := none
  /-- Stripped capture of the explicit target-audience regex. -/
  audience_explicit_value : Option String := none
  /-- Parsed integers of the matching `slide_patterns`, in pattern order. -/
  slide_count_matches : List Nat := []
  /-- Style of the first matching `citation_patterns` entry
  (the source maps an "mla" request to "apa"). -/
  citation_style_match : Option String := none
  /-- Some end-of-deck placement phrase occurs ("last slide", "end", ...). -/
  refs_end_phrases : Bool := false
  /-- Some distributed placement phrase occurs ("each slide", ...). -/
  refs_each_phrases : Bool := false
  /-- A "detailed"-group emphasis word occurs. -/
  emphasis_detailed_words : Bool := false
  /-- A "concise"-group emphasis word occurs. -/
  emphasis_concise_words : Bool := false
  /-- A "visual"-group emphasis word occurs. -/
  emphasis_visual_words : Bool := false
  /-- An "academic"-group tone word occurs. -/
  tone_academic_words : Bool := false
  /-- A "casual"-group tone word occurs. -/
  tone_casual_words : Bool := false
  /-- A "technical"-group tone word occurs. -/
  tone_technical_words : Bool := false
  /-- A "persuasive"-group tone word occurs. -/
  tone_persuasive_words : Bool := false
  /-- Theme of the first matching `theme_patterns` entry. -/
  theme_pattern_match : Option String := none
  /-- Stripped captures of the matching `topic_patterns`, in pattern order. -/
  topic_matches : List String := []
  /-- Stripped `findall` results of the two `focus_patterns`, concatenated. -/
  focus_area_matches : List String := []
deriving DecidableEq, Repr

instance : Inhabited Msg := ⟨{}⟩

/-- Extractor: detect user confirmation (gated on `confirmation_sent`). -/
def stepConfirm (m : Msg) (i : GatheredInfo) : GatheredInfo :=
  if i.confirmation_sent && m.confirm_match then { i with user_confirmed := true } else i

/-- Extractor: detect "decide yourself" overrides. -/
def stepDecide (m : Msg) (i : GatheredInfo) : GatheredInfo :=
  if m.decide_match then
    let i := if m.mentions_title_or_topic then
      { i with let_agent_decide_title := true, has_title := true } else i
    let i := if m.mentions_theme then
      { i with let_agent_decide_theme := true, has_theme := true } else i
    if m.mentions_citation_or_reference then
      { i with let_agent_decide_citation := true, has_citation_style := true } else i
  else i

/-- Extractor: detect audience (pattern list first, explicit statement only
when the pattern list did not fire). -/
def stepAudience (m : Msg) (i : GatheredInfo) : GatheredInfo :=
  let i := match m.audience_pattern_value with
    | some v => { i with audience := some v, has_audience := true }
    | none => i
  match m.audience_explicit_value with
  | some v => if !i.has_audience then { i with audience := some v, has_audience := true } else i
  | none => i

/-- Extractor: detect slide count; the first matched count inside `[3, 50]`
wins, out-of-range matches fall through to the next pattern. -/
def stepSlides (m : Msg) (i : GatheredInfo) : GatheredInfo :=
  match m.slide_count_matches.find? (fun c => 3 ≤ c && c ≤ 50) with
  | some c => { i with slide_count := some c, has_slide_count := true }
  | none => i

/-- Extractor: detect citation style. -/
def stepCitation (m : Msg) (i : GatheredInfo) : GatheredInfo :=
  match m.citation_style_match with
  | some s => { i with citation_style := some s, has_citation_style := true }
  | none => i

/-- Extractor: detect references placement (the `elif` structure of the
source: an end-phrase hit without a citation mention skips the whole
topic even when a distributed phrase is also present). -/
def stepRefs (m : Msg) (i : GatheredInfo) : GatheredInfo :=
  if m.refs_end_phrases then
    if m.mentions_citation_or_reference then
      { i with references_placement := some "last_slide", has_references_placement := true }
    else i
  else if m.refs_each_phrases then
    if m.mentions_citation_or_reference then
      { i with references_placement := some "distributed", has_references_placement := true }
    else i
  else i

/-- Extractor: detect emphasis style. -/
def stepEmphasis (m : Msg) (i : GatheredInfo) : GatheredInfo :=
  if m.emphasis_detailed_words then
    { i with emphasis_style := some "detailed", has_emphasis_style := true }
  else if m.emphasis_concise_words then
    { i with emphasis_style := some "concise", has_emphasis_style := true }
  else if m.emphasis_visual_words then
    { i with emphasis_style := some "visual-heavy", has_emphasis_style := true }
  else i

/-- Extractor: detect tone. -/
def stepTone (m : Msg) (i : GatheredInfo) : GatheredInfo :=
  if m.tone_academic_words then { i with tone := some "academic", has_tone := true }
  else if m.tone_casual_words then { i with tone := some "casual", has_tone := true }
  else if m.tone_technical_words then { i with tone := some "technical", has_tone := true }
  else if m.tone_persuasive_words then { i with tone := some "persuasive", has_tone := true }
  else i

/-- Extractor: detect theme. -/
def stepTheme (m : Msg) (i : GatheredInfo) : GatheredInfo :=
  match m.theme_pattern_match with
  | some v => { i with theme := some v, has_theme := true }
  | none => i

/-- Extractor: detect topic/title; first captured topic longer than 5
characters wins and is also appended to the focus areas when new. -/
def stepTitle (m : Msg) (i : GatheredInfo) : GatheredInfo :=
  if !i.has_title && !i.let_agent_decide_title then
    match m.topic_matches.find? (fun t => 5 < t.length) with
    | some topic =>
      let i := { i with title := some topic, has_title := true }
      if topic ∈ i.focus_areas then i
      else { i with focus_areas := i.focus_areas ++ [topic], has_focus_areas := true }
    | none => i
  else i

/-- One iteration of the focus-area loop: append the phrase when it is
longer than 3 characters and not already present. -/
def focusStep (i : GatheredInfo) (item : String) : GatheredInfo :=
  if 3 < item.length ∧ item ∉ i.focus_areas then
    { i with focus_areas := i.focus_areas ++ [item], has_focus_areas := true }
  else i

/-- Extractor: append the matched focus-area phrases in order. -/
def stepFocus (m : Msg) (i : GatheredInfo) : GatheredInfo :=
  m.focus_area_matches.foldl focusStep i

/-- `SlideGenerationFlow._extract_info_from_message`: update the gathered
info from one user message, topic blocks applied in source order. -/
def extract_info_from_message (m : Msg) (i : GatheredInfo) : GatheredInfo :=
  stepFocus m (stepTitle m (stepTheme m (stepTone m (stepEmphasis m
    (stepRefs m (stepCitation m (stepSlides m (stepAudience m
      (stepDecide m (stepConfirm m i))))))))))

/-- `ColorPalette` (`app/models/schemas.py`). -/
structure ColorPalette where
  primary : String := "#3B82F6"
  secondary : String := "#10B981"
  background : String := "#FFFFFF"
  text : String := "#1F2937"
  accent : String := "#F59E0B"
deriving DecidableEq, Repr

/-- `ClarificationMessage`: one turn of the clarification conversation.
The `datetime` timestamp is modelled as a natural number. -/
structure ClarificationMessage where
  role : String
  content : String
  timestamp : Nat := 0
deriving DecidableEq, Repr

/-- `OrderForm`: the finalized requirements contract.  `Literal` string
fields are modelled as `String` (pydantic validates membership at
construction; every value written by the embedded code is legal). -/
structure OrderForm where
  theme_id : String := "modern"
  color_overrides : Option ColorPalette := none
  citation_style : String := "apa"
  tone : String := "academic"
  target_audience : String := "General academic"
  target_slides : Nat := 10
  presentation_title : String := ""
  key_topics : List String := []
  focus_areas : List String := []
  emphasis_style : String := "detailed"
  references_placement : String := "distributed"
  special_requests : String := ""
  template_preferences : List (Nat × String) := []
  include_speaker_notes : Bool := true
  is_complete : Bool := false
  clarification_notes : String := ""
deriving DecidableEq, Repr

instance : Inhabited OrderForm := ⟨{}⟩

/-- `SkeletonSlide`: a slide record of the structural skeleton. -/
structure SkeletonSlide where
  order : Nat
  title : String
  description : String := ""
  content_type : SlideContentType := .content
  needs_diagram : Bool := false
  diagram_description : Option String := none
  needs_equation : Bool := false
  equation_description : Option String := none
  needs_citation : Bool := false
  citation_topic : Option String := none
  needs_image : Bool := false
  image_description : Option String := none
deriving DecidableEq, Repr

/-- `Skeleton`: the complete outline. -/
structure Skeleton where
  presentation_title : String
  target_audience : String
  narrative_arc : String := ""
  slides : List SkeletonSlide := []
  source_documents : List String := []
deriving DecidableEq, Repr

/-- `CitationMetadata`.  Scores are modelled as rationals. -/
structure CitationMetadata where
  title : String := ""
  authors : List String := []
  year : String := ""
  source_type : String := "article"
  source_name : Option String := none
  doi : Option String := none
  url : Option String := none
  arxiv_id : Option String := none
  volume : Option String := none
  issue : Option String := none
  pages : Option String := none
  publisher : Option String := none
  abstract : Option String := none
  verified : Bool := false
  relevance_score : Rat := 0
deriving DecidableEq, Repr

/-- `PlannedSlide`: a slide after the Planner stage. -/
structure PlannedSlide where
  order : Nat
  title : String
  content_type : SlideContentType := .content
  bullet_points : List String := []
  equation_placeholder : Option String := none
  diagram_placeholder : Option String := none
  citation_queries : List String := []
  image_query : Option String := none
  speaker_notes : Option String := none
  template_type : Option String := none
deriving DecidableEq, Repr

/-- `PlannedContent`. -/
structure PlannedContent where
  presentation_title : String
  target_audience : String
  theme_id : String := "modern"
  citation_style : String := "apa"
  slides : List PlannedSlide := []
deriving DecidableEq, Repr

/-- `RefinedSlide`: a slide after the Refiner stage. -/
structure RefinedSlide where
  order : Nat
  title : String
  content_type : SlideContentType := .content
  bullet_points : List String := []
  equation_svg : Option String := none
  equation_latex : Option String := none
  diagram_svg : Option String := none
  diagram_mermaid : Option String := none
  citations : List CitationMetadata := []
  formatted_citations : List String := []
  image_url : Option String := none
  image_alt : Option String := none
  image_caption : Option String := none
  template_type : String := "content"
  speaker_notes : Option String := none
  all_claims_verified : Bool := false
  removed_claims : List String := []
deriving DecidableEq, Repr

/-- `RefinedContent`. -/
structure RefinedContent where
  presentation_title : String
  target_audience : String
  theme_id : String := "modern"
  citation_style : String := "apa"
  slides : List RefinedSlide := []
  total_citations : Nat := 0
  verified_images : Nat := 0
  equations_rendered : Nat := 0
  diagrams_rendered : Nat := 0
deriving DecidableEq, Repr

/-- `GeneratedSlide`: a rendered HTML slide. -/
structure GeneratedSlide where
  order : Nat
  title : String
  theme_id : String
  color_palette : Option ColorPalette := none
  rendered_html : String
  speaker_notes : Option String := none
deriving DecidableEq, Repr

/-- `GeneratedPresentation`. -/
structure GeneratedPresentation where
  title : String
  slides : List GeneratedSlide := []
  theme_id : String
  total_slides : Nat := 0
  generation_time_ms : Nat := 0
deriving DecidableEq, Repr

/-- `QAResult`: per-slide visual QA score. -/
structure QAResult where
  slide_order : Nat
  score : Rat
  issues : List String := []
  screenshot_base64 : Option String := none
  passed : Bool := false
  iterations : Nat := 1
deriving DecidableEq, Repr

/-- `QAReport`. -/
structure QAReport where
  session_id : String
  slides : List QAResult := []
  average_score : Rat := 0
  all_passed : Bool := false
  total_iterations : Nat := 0
deriving DecidableEq, Repr

/-- Modelled from the spec: `DocumentSection` is imported by the flow from
`app.models.schemas` but its definition is not among the provided sources;
its shape (title, content, visuals, page range) is taken from the spec's
synthesis/knowledge-base description and the repository's own
`test_schemas_knowledge_base.py`. -/
structure DocumentSection where
  title : String
  content : String
  visuals : List String := []
  page_range : String := ""
deriving DecidableEq, Repr

/-- Modelled from the spec: `KnowledgeBase` (summary plus extracted
sections), the structured content produced by the synthesis stage; the
definition is not among the provided sources, its shape is taken from the
spec and `test_schemas_knowledge_base.py`. -/
structure KnowledgeBase where
  summary : String
  sections : List DocumentSection := []
deriving DecidableEq, Repr

/-- `FlowState` (`app/crew/flows/slide_generation.py`): state passed
between flow steps.  `datetime` fields are modelled as naturals; the
untyped `failure_context` dict is carried as an opaque optional string (no
embedded operation inspects it); `helper_attempts : Dict[str, int]` is an
association list so that its values can be summed. -/
structure FlowState where
  session_id : String
  user_id : Option String := none
  created_at : Nat := 0
  updated_at : Nat := 0
  order_form : Option OrderForm := none
  skeleton : Option Skeleton := none
  planned_content : Option PlannedContent := none
  refined_content : Option RefinedContent := none
  generated_presentation : Option GeneratedPresentation := none
  qa_report : Option QAReport := none
  knowledge_base : Option KnowledgeBase := none
  conversation_history : List ClarificationMessage := []
  gathered_info : Option GatheredInfo := none
  status : FlowStatus := .awaiting_clarification
  current_stage : String := "clarifier"
  qa_loops : Nat := 0
  max_qa_loops : Nat := 3
  helper_attempts : List (String × Nat) := []
  failure_context : Option String := none
  error_message : Option String := none
  slides_completed : Nat := 0
  total_slides : Nat := 0
deriving DecidableEq, Repr

/-- The database dictionary written by `FlowState.to_db_dict` and read by
`FlowState.from_db`.  Keys are the exact keys of the source; `id` is the
key `from_db` reads for the session id — `to_db_dict` never writes it.
Each pydantic sub-object is stored as its typed value because
`model_dump` followed by re-validation is the identity on these models. -/
structure DbDict where
  id : Option String := none
  session_id : String
  status : String
  current_stage : String
  order_form : Option OrderForm
  skeleton : Option Skeleton
  planned_content : Option PlannedContent
  refined_content : Option RefinedContent
  generated_slides : Option GeneratedPresentation
  knowledge_base : Option KnowledgeBase
  qa_loops_count : Nat
  helper_retries : Nat
  final_qa_score : Option Rat
  updated_at : Nat
deriving DecidableEq, Repr

/-- `FlowState.to_db_dict`: serialize for database storage (`now` stands
for the `datetime.utcnow()` call). -/
def FlowState.to_db_dict (s : FlowState) (now : Nat) : DbDict :=
  { session_id := s.session_id
    status := s.status.val
    current_stage := s.current_stage
    order_form := s.order_form
    skeleton := s.skeleton
    planned_content := s.planned_content
    refined_content := s.refined_content
    generated_slides := s.generated_presentation
    knowledge_base := s.knowledge_base
    qa_loops_count := s.qa_loops
    helper_retries := (s.helper_attempts.map Prod.snd).sum
    final_qa_score := s.qa_report.map QAReport.average_score
    updated_at := now }

/-- `FlowState.from_db`: restore state from a database row.  `fresh_uuid`
stands for the `uuid4()` default taken when the row has no `id` key, and
`now` for the `utcnow()` defaults of the timestamp fields; `none` models
the `ValueError` raised by `FlowStatus(...)` on an unknown status string. -/
def FlowState.from_db (d : DbDict) (fresh_uuid : String) (now : Nat) : Option FlowState :=
  (FlowStatus.ofVal d.status).map fun st =>
    { session_id := d.id.getD fresh_uuid
      created_at := now
      updated_at := now
      status := st
      current_stage := d.current_stage
      qa_loops := d.qa_loops_count
      order_form := d.order_form
      skeleton := d.skeleton
      planned_content := d.planned_content
      refined_content := d.refined_content
      generated_presentation := d.generated_slides
      knowledge_base := d.knowledge_base }

/-- The in-memory skeleton as the flow mutates it: Python slide objects
are mutable and shared, so `skeleton.slides` is a list of object ids into
a heap of `SkeletonSlide` records.  Assigning `slide.order = i` updates
the heap cell, visible through every alias of that object. -/
structure LiveSkeleton where
  heap : Nat → SkeletonSlide
  slide_ids : List Nat
  next_id : Nat

/-- The order values of the slide list, read through the heap. -/
def LiveSkeleton.orders (sk : LiveSkeleton) : List Nat :=
  sk.slide_ids.map (fun id => (sk.heap id).order)

/-- One entry of the `modifications` array of `approve_outline`
(`ApproveRequest.modifications`, a JSON dict per operation; absent keys
are `Option.none`). -/
inductive OutlineMod
  | add (order : Option Nat) (title : Option String)
      (content_type : Option SlideContentType) (description : Option String)
  | remove (order : Option Nat)
  | modify (order : Option Nat) (title : Option String) (description : Option String)
      (needs_diagram : Option Bool) (needs_equation : Option Bool)
  | reorder (new_order : List Nat)

/-- The `reorder` loop of `approve_outline`: for each requested old order
value (position `i` counted from 1), find the first slide in the original
list whose current order equals it, set that slide's order to `i` in
place, and append it to the result — the lookup sees the in-place updates
made by earlier iterations. -/
def reorderLoop (heap : Nat → SkeletonSlide) (ids : List Nat) (i : Nat) :
    List Nat → ((Nat → SkeletonSlide) × List Nat)
  | [] => (heap, [])
  | v :: vs =>
    match ids.find? (fun id => (heap id).order == v) with
    | some id =>
      let heap' := fun n => if n = id then { heap id with order := i } else heap n
      let (h, rest) := reorderLoop heap' ids (i + 1) vs
      (h, id :: rest)
    | none => reorderLoop heap ids (i + 1) vs

/-- Apply one modification, in the semantics of `approve_outline`. -/
def applyMod (sk : LiveSkeleton) (mod : OutlineMod) : LiveSkeleton :=
  match mod with
  | .add order title content_type description =>
    let slide : SkeletonSlide :=
      { order := order.getD (sk.slide_ids.length + 1)
        title := title.getD "New Slide"
        content_type := content_type.getD .content
        description := description.getD "" }
    { heap := fun n => if n = sk.next_id then slide else sk.heap n
      slide_ids := sk.slide_ids ++ [sk.next_id]
      next_id := sk.next_id + 1 }
  | .remove order =>
    match order with
    | some o => { sk with slide_ids := sk.slide_ids.filter (fun id => (sk.heap id).order != o) }
    | none => sk
  | .modify order title description nd neq =>
    match order with
    | none => sk
    | some o =>
      match sk.slide_ids.find? (fun id => (sk.heap id).order == o) with
      | none => sk
      | some id =>
        let s := sk.heap id
        let s := match title with | some t => { s with title := t } | none => s
        let s := match description with | some d => { s with description := d } | none => s
        let s := match nd with | some b => { s with needs_diagram := b } | none => s
        let s := match neq with | some b => { s with needs_equation := b } | none => s
        { sk with heap := fun n => if n = id then s else sk.heap n }
  | .reorder new_order =>
    if new_order = [] then sk
    else
      let (h, ordered) := reorderLoop sk.heap sk.slide_ids 1 new_order
      { sk with heap := h, slide_ids := ordered }

/-- The renumbering pass of `approve_outline`: assign order `i` to the
slide object at position `i` (aliased objects are written once per
occurrence, the last write winning). -/
def renumber (heap : Nat → SkeletonSlide) (i : Nat) : List Nat → (Nat → SkeletonSlide)
  | [] => heap
  | id :: rest =>
    renumber (fun n => if n = id then { heap id with order := i } else heap n) (i + 1) rest

/-- The skeleton transformation of `SlideGenerationFlow.approve_outline`:
if the modification list is non-empty, apply each operation in array order
and then renumber slides 1..N; a `None` or empty list leaves the skeleton
untouched. -/
def approve_outline_mods (sk : LiveSkeleton) (mods : List OutlineMod) : LiveSkeleton :=
  match mods with
  | [] => sk
  | _ :: _ =>
    let sk := mods.foldl applyMod sk
    { sk with heap := renumber sk.heap 1 sk.slide_ids }

/-- Events flowing through `FlowEventEmitter.emit`: type, session id,
timestamp, and payload entries. -/
structure FlowEvent where
  type : String
  session_id : String
  timestamp : Nat
  data : List (String × String)
deriving DecidableEq, Repr

/-- Outcome of handing an event to one listener: the listener returned, or
raised and the error was caught and logged by `emit`. -/
inductive Delivery
  | delivered
  | error_logged (msg : String)
deriving DecidableEq, Repr

/-- `FlowEventEmitter`: session id plus registered listeners.  A listener
is a function of the event; `.error` models the listener raising. -/
structure FlowEventEmitter where
  session_id : String
  listeners : List (FlowEvent → Except String Unit)

/-- `FlowEventEmitter.add_listener`. -/
def FlowEventEmitter.add_listener (em : FlowEventEmitter)
    (callback : FlowEvent → Except String Unit) : FlowEventEmitter :=
  { em with listeners := em.listeners ++ [callback] }

/-- The listener loop of `emit`: call each listener in registration order
on the same event; a raised error is caught and logged, and the loop
continues with the remaining listeners. -/
def deliverAll (ev : FlowEvent) : List (FlowEvent → Except String Unit) → List Delivery
  | [] => []
  | l :: rest =>
    (match l ev with
     | .ok _ => Delivery.delivered
     | .error e => Delivery.error_logged e) :: deliverAll ev rest

/-- `FlowEventEmitter.emit`: build the event record and dispatch it to
every listener; returns the event and the per-listener outcomes.  The
return type is total: no listener error propagates to the caller. -/
def FlowEventEmitter.emit (em : FlowEventEmitter) (event_type : String)
    (data : List (String × String)) (now : Nat) : FlowEvent × List Delivery :=
  let event : FlowEvent :=
    { type := event_type, session_id := em.session_id, timestamp := now, data := data }
  (event, deliverAll event em.listeners)

/-- Result of an API endpoint: a payload or an `HTTPException`. -/
inductive ApiResult (α : Type)
  | ok (payload : α)
  | httpError (status_code : Nat) (detail : String)
deriving DecidableEq, Repr

/-- `get_result` (`app/api/routers/generation.py`), given the stored
session state (`get_session` has already resolved the id; a missing
session is a 404 upstream of this function). -/
def get_result (state : FlowState) : ApiResult (GeneratedPresentation × Option QAReport) :=
  if state.status ≠ FlowStatus.completed then
    .httpError 400 ("Generation not complete. Status: " ++ state.status.val)
  else
    match state.generated_presentation with
    | none => .httpError 500 "No presentation found"
    | some p => .ok (p, state.qa_report)

/-- Python `x or d` on an optional string: `None` and the empty string are
falsy and select the default. -/
def pyOrStr (x : Option String) (d : String) : String :=
  match x with
  | some v => if v = "" then d else v
  | none => d

/-- Python `x or d` on an optional integer: `None` and `0` are falsy. -/
def pyOrNat (x : Option Nat) (d : Nat) : Nat :=
  match x with
  | some v => if v = 0 then d else v
  | none => d

/-- Python truthiness of an optional string. -/
def pyTruthyStr (x : Option String) : Bool :=
  match x with
  | some v => v != ""
  | none => false

/-- The structured summary dict built by `_build_summary_for_ui`. -/
structure UiSummary where
  title : String
  audience : String
  slide_count : Nat
  focus_areas : List String
  emphasis_style : String
  tone : String
  citation_style : String
  references_placement : String
  theme : String
  special_requests : String
  agent_decides_title : Bool
  agent_decides_theme : Bool
  agent_decides_citation : Bool
deriving DecidableEq, Repr

/-- `_build_summary_for_ui`. -/
def build_summary_for_ui (info : GatheredInfo) : UiSummary :=
  { title := pyOrStr info.title "(To be decided)"
    audience := pyOrStr info.audience "(Not specified)"
    slide_count := pyOrNat info.slide_count 10
    focus_areas := if info.focus_areas = [] then ["(To be decided)"] else info.focus_areas
    emphasis_style := pyOrStr info.emphasis_style "detailed"
    tone := pyOrStr info.tone "academic"
    citation_style := pyOrStr info.citation_style "apa"
    references_placement := pyOrStr info.references_placement "last_slide"
    theme := if pyTruthyStr info.theme then info.theme.getD ""
      else if !info.let_agent_decide_theme then "(To be decided)" else "(Auto)"
    special_requests := pyOrStr info.special_requests ""
    agent_decides_title := info.let_agent_decide_title
    agent_decides_theme := info.let_agent_decide_theme
    agent_decides_citation := info.let_agent_decide_citation }

/-- Convenience constructor for conversation messages. -/
def mkMessage (role content : String) (timestamp : Nat) : ClarificationMessage :=
  { role := role, content := content, timestamp := timestamp }

/-- The dict returned by `process_clarification` to the router. -/
structure ClarifyResponse where
  complete : Bool
  question : Option String := none
  order_form : Option OrderForm := none
  needs_confirmation : Bool := false
  summary : Option UiSummary := none
  message : Option String := none
deriving DecidableEq, Repr

/-- Observations of the clarifier agent call inside
`process_clarification`: the crew result (or the exception it raised) and
the fixed-pattern classifications the source applies to the response
text. -/
structure ClarifierOracle where
  /-- `str(crew.kickoff())`, or `.error` when the agent call raised. -/
  agent_result : Except String String
  /-- Some `confirmation_request_patterns` regex matches the response. -/
  is_confirmation_request : Bool
  /-- `_looks_like_order_form`: at least two OrderForm keywords occur. -/
  order_form_like : Bool
  /-- The JSON block match of `_parse_order_form`, when it parses. -/
  parsed_json_form : Option OrderForm

/-- The `OrderForm` built on the auto-complete path of
`process_clarification` once the user has confirmed: every ungathered
field falls back to a fixed default. -/
def confirmed_order_form (info : GatheredInfo) : OrderForm :=
  { presentation_title := pyOrStr info.title "Untitled Presentation"
    target_audience := pyOrStr info.audience "General audience"
    target_slides := pyOrNat info.slide_count 10
    focus_areas := info.focus_areas
    key_topics := info.key_topics
    tone := pyOrStr info.tone "academic"
    emphasis_style := pyOrStr info.emphasis_style "detailed"
    citation_style := pyOrStr info.citation_style "apa"
    references_placement := pyOrStr info.references_placement "last_slide"
    theme_id := pyOrStr info.theme "modern"
    include_speaker_notes := info.include_speaker_notes.getD true
    special_requests := pyOrStr info.special_requests ""
    is_complete := true }

/-- The fallback of `_parse_order_form` when no JSON block parses. -/
def fallback_order_form (info : GatheredInfo) : OrderForm :=
  { presentation_title := pyOrStr info.title "Untitled"
    target_audience := pyOrStr info.audience "General academic"
    target_slides := pyOrNat info.slide_count 10
    focus_areas := info.focus_areas
    key_topics := info.key_topics
    is_complete := false }

/-- `_parse_order_form`. -/
def parse_order_form (o : ClarifierOracle) (info : GatheredInfo) : OrderForm :=
  match o.parsed_json_form with
  | some f => f
  | none => fallback_order_form info

/-- `_merge_gathered_info`: fill gaps of an agent-produced form from the
gathered info (Python truthiness guards throughout). -/
def merge_gathered_info (form : OrderForm) (info : GatheredInfo) : OrderForm :=
  let form := if form.presentation_title = "" && pyTruthyStr info.title then
    { form with presentation_title := info.title.getD "" } else form
  let form := if form.target_audience = "General academic" && pyTruthyStr info.audience then
    { form with target_audience := info.audience.getD "" } else form
  let form := if form.target_slides = 10 && (pyOrNat info.slide_count 0) != 0 then
    { form with target_slides := info.slide_count.getD 0 } else form
  let form := if form.focus_areas = [] && info.focus_areas ≠ [] then
    { form with focus_areas := info.focus_areas } else form
  let form := if form.key_topics = [] && info.key_topics ≠ [] then
    { form with key_topics := info.key_topics } else form
  let form := if pyTruthyStr info.emphasis_style then
    { form with emphasis_style := info.emphasis_style.getD "" } else form
  let form := if pyTruthyStr info.tone then
    { form with tone := info.tone.getD "" } else form
  let form := if pyTruthyStr info.citation_style then
    { form with citation_style := info.citation_style.getD "" } else form
  let form := if pyTruthyStr info.references_placement then
    { form with references_placement := info.references_placement.getD "" } else form
  let form := if pyTruthyStr info.theme then
    { form with theme_id := info.theme.getD "" } else form
  if pyTruthyStr info.special_requests then
    { form with special_requests := info.special_requests.getD "" } else form

/-- `SlideGenerationFlow.process_clarification`: extract from the user
message, auto-complete when the user has confirmed, otherwise consult the
clarifier agent (`oracle`).  Event emissions are pure logging and are not
modelled here; `now` stamps the appended conversation messages; `.error`
models the re-raised agent exception. -/
def process_clarification (st : FlowState) (m : Msg) (user_text : String)
    (oracle : ClarifierOracle) (now : Nat) : Except String (FlowState × ClarifyResponse) :=
  let info0 := st.gathered_info.getD {}
  let st := { st with
    gathered_info := some info0
    conversation_history := st.conversation_history ++ [mkMessage "user" user_text now] }
  let info := extract_info_from_message m info0
  let st := { st with gathered_info := some info }
  if info.is_fully_confirmed then
    let form := confirmed_order_form info
    let st := { st with
      order_form := some form
      status := .clarification_complete
      conversation_history := st.conversation_history ++
        [mkMessage "assistant" "**Requirements confirmed!** I\x27m now ready to generate your presentation outline." now] }
    .ok (st, { complete := true, order_form := some form,
               message := some "Requirements confirmed! Ready to generate your presentation." })
  else
    match oracle.agent_result with
    | .error e => .error e
    | .ok response_text =>
      let st := { st with conversation_history :=
        st.conversation_history ++ [mkMessage "assistant" response_text now] }
      let info := if oracle.is_confirmation_request then
        { info with confirmation_sent := true } else info
      let st := { st with gathered_info := some info }
      if oracle.order_form_like then
        let form := parse_order_form oracle info
        let form := { form with is_complete := true }
        let form := merge_gathered_info form info
        let st := { st with order_form := some form, status := .clarification_complete }
        .ok (st, { complete := true, order_form := some form,
                   message := some "Requirements confirmed! Ready to generate your presentation." })
      else
        let base := st.order_form.getD {}
        let noted : OrderForm := { base with clarification_notes := response_text }
        let st := { st with order_form := some noted }
        if info.is_ready_for_confirmation then
          .ok (st, { complete := false, needs_confirmation := true, question := none,
                     summary := some (build_summary_for_ui info),
                     message := some "Please review your presentation requirements:" })
        else
          .ok (st, { complete := false, question := some response_text })

/-- Contiguous-sublist test on lists (used for Python `sub in s`). -/
def listIsInfixOf [BEq α] (pat : List α) : List α → Bool
  | [] => pat.isEmpty
  | l@(_ :: rest) => pat.isPrefixOf l || listIsInfixOf pat rest

/-- Python `sub in s` on strings. -/
def strContains (s pat : String) : Bool :=
  listIsInfixOf pat.toList s.toList

/-- `_placeholder_to_latex`: fixed conversion of a placeholder
description to LaTeX. -/
def placeholder_to_latex (placeholder : String) : String :=
  if strContains placeholder.toLower "linear regression" then
    "y = \\beta_0 + \\beta_1 x + \\epsilon"
  else if strContains placeholder.toLower "quadratic" then
    "ax^2 + bx + c = 0"
  else
    "f(x) = \\sum_\x7bi=1\x7d^\x7bn\x7d x_i"

/-- `_placeholder_to_mermaid`. -/
def placeholder_to_mermaid (placeholder : String) : String :=
  "graph TD\n    A[Start] --> B[" ++ placeholder ++ "]\n    B --> C[End]"

/-- Observable steps of `run_generation`, in execution order: status
writes, stage starts, and per-slide generation completions together with
the value of `slides_completed` right after the increment. -/
inductive TraceEv
  | status_set (st : FlowStatus)
  | stage_start (name : String)
  | slide_done (slide_order : Nat) (completed_after : Nat)
deriving DecidableEq, Repr

/-- External collaborators of the generation pipeline: the planner crew
call (its parsed `slides` JSON, or `none` when no JSON block with a
`slides` key parses, or `.error` when the call raised) and the two
rendering endpoints of the render tool (`.error` models a raised
exception; an `"Error..."` string return is handled separately by the
source). -/
structure GenOracle where
  planner_result : Except String (Option (List PlannedSlide))
  render_latex : String → Except String String
  render_mermaid : String → Except String String

/-- `_parse_planned_content`: use the agent's parsed slides when present,
otherwise fall back to one planned slide per skeleton slide. -/
def parse_planned_content (parsed : Option (List PlannedSlide)) (sk : Skeleton)
    (of : OrderForm) : PlannedContent :=
  match parsed with
  | some slides =>
    { presentation_title := sk.presentation_title
      target_audience := sk.target_audience
      theme_id := of.theme_id
      citation_style := of.citation_style
      slides := slides }
  | none =>
    { presentation_title := sk.presentation_title
      target_audience := sk.target_audience
      theme_id := of.theme_id
      citation_style := of.citation_style
      slides := sk.slides.map (fun s =>
        { order := s.order
          title := s.title
          content_type := s.content_type
          bullet_points := [if s.description = "" then "Content to be added" else s.description] }) }

/-- `_refine_slide`: copy the planned slide and render its assets; a
rendering exception or an `"Error..."` result leaves the asset unset. -/
def refine_slide (o : GenOracle) (planned : PlannedSlide) : RefinedSlide :=
  let refined : RefinedSlide :=
    { order := planned.order
      title := planned.title
      content_type := planned.content_type
      bullet_points := planned.bullet_points
      template_type := pyOrStr planned.template_type "content"
      speaker_notes := planned.speaker_notes }
  let refined :=
    if pyTruthyStr planned.equation_placeholder then
      let latex := placeholder_to_latex (planned.equation_placeholder.getD "")
      match o.render_latex latex with
      | .ok svg =>
        if !svg.startsWith "Error" then
          { refined with equation_latex := some latex, equation_svg := some svg }
        else refined
      | .error _ => refined
    else refined
  if pyTruthyStr planned.diagram_placeholder then
    let mermaid := placeholder_to_mermaid (planned.diagram_placeholder.getD "")
    match o.render_mermaid mermaid with
    | .ok svg =>
      if !svg.startsWith "Error" then
        { refined with diagram_mermaid := some mermaid, diagram_svg := some svg }
      else refined
    | .error _ => refined
  else refined

/-- `_build_slide_html`. -/
def build_slide_html (slide : RefinedSlide) : String :=
  let bullets_html := String.intercalate "\n"
    (slide.bullet_points.map (fun point => "<li>" ++ point ++ "</li>"))
  let content_html := "<ul>" ++ bullets_html ++ "</ul>"
  let content_html := if pyTruthyStr slide.equation_svg then
    content_html ++ "<div class=\"equation\">" ++ slide.equation_svg.getD "" ++ "</div>"
    else content_html
  let content_html := if pyTruthyStr slide.diagram_svg then
    content_html ++ "<div class=\"diagram\">" ++ slide.diagram_svg.getD "" ++ "</div>"
    else content_html
  let content_html := if pyTruthyStr slide.image_url then
    content_html ++ "<img src=\"" ++ slide.image_url.getD "" ++ "\" alt=\"" ++
      (pyOrStr slide.image_alt "") ++ "\">"
    else content_html
  "<div class=\"slide slide-" ++ toString slide.order ++ "\" data-template=\"" ++
    slide.template_type ++ "\">\n    <div class=\"slide-header\">\n        " ++
    "<h1 class=\"slide-title\">" ++ slide.title ++ "</h1>\n    </div>\n    " ++
    "<div class=\"slide-content\">\n        " ++ content_html ++ "\n    </div>\n</div>"

/-- The fan-out of `_run_generator` over `_generate_slide_html`: one task
per refined slide, each building its HTML and bumping `slides_completed`
by one.  Each Python increment is a single read-modify-write with no
`await` in between, so under the event loop the counter takes exactly the
values `completed+1 .. completed+k` across the tasks; `asyncio.gather`
returns the results in task order, which this sequential fold follows. -/
def generator_loop (theme_id : String) (completed : Nat) :
    List RefinedSlide → (Nat × List TraceEv × List GeneratedSlide)
  | [] => (completed, [], [])
  | r :: rest =>
    let g : GeneratedSlide :=
      { order := r.order
        title := r.title
        theme_id := theme_id
        rendered_html := build_slide_html r
        speaker_notes := r.speaker_notes }
    let tail := generator_loop theme_id (completed + 1) rest
    (tail.1, TraceEv.slide_done r.order (completed + 1) :: tail.2.1, g :: tail.2.2)

/-- Result of one `run_generation` call: the state it left behind, the
observable trace, and the returned presentation or raised error. -/
structure GenRun where
  final : FlowState
  trace : List TraceEv
  result : Except String GeneratedPresentation

/-- The `except` clause of `run_generation`: record the error, flip the
status to `failed`, re-raise. -/
def failRun (st : FlowState) (t : List TraceEv) (msg : String) : GenRun :=
  { final := { st with status := .failed, error_message := some msg }
    trace := t ++ [.status_set .failed]
    result := .error msg }

/-- `SlideGenerationFlow.run_generation`: the Planner → Refiner →
Generator → QA pipeline.  A missing skeleton or order form reproduces the
`AttributeError` the source raises when building the planner prompt —
after `_run_planner` has already set `current_stage` to "planner", so the
failed state carries that stage; an empty generated-slide list reproduces
the `ZeroDivisionError` of the QA average. -/
def run_generation (st : FlowState) (o : GenOracle) : GenRun :=
  if st.status ≠ FlowStatus.outline_approved then
    { final := st, trace := [],
      result := .error ("Cannot generate: status is " ++ st.status.val) }
  else
    let st := { st with status := .generating }
    let t : List TraceEv := [.status_set .generating]
    match st.skeleton, st.order_form with
    | none, _ => failRun { st with current_stage := "planner" } (t ++ [.stage_start "planner"])
        "AttributeError: NoneType has no attribute slides"
    | some _, none => failRun { st with current_stage := "planner" } (t ++ [.stage_start "planner"])
        "AttributeError: NoneType has no attribute tone"
    | some sk, some of =>
      let st := { st with current_stage := "planner" }
      let t := t ++ [.stage_start "planner"]
      match o.planner_result with
      | .error e => failRun st t e
      | .ok parsed =>
        let planned := parse_planned_content parsed sk of
        let st := { st with planned_content := some planned }
        let st := { st with current_stage := "refiner" }
        let t := t ++ [.stage_start "refiner"]
        let refined_slides := planned.slides.map (refine_slide o)
        let refined : RefinedContent :=
          { presentation_title := planned.presentation_title
            target_audience := planned.target_audience
            theme_id := planned.theme_id
            citation_style := planned.citation_style
            slides := refined_slides
            total_citations := (refined_slides.map (fun s => s.citations.length)).sum
            equations_rendered := (refined_slides.filter (fun s => pyTruthyStr s.equation_svg)).length
            diagrams_rendered := (refined_slides.filter (fun s => pyTruthyStr s.diagram_svg)).length }
        let st := { st with refined_content := some refined }
        let st := { st with current_stage := "generator" }
        let t := t ++ [.stage_start "generator"]
        let gl := generator_loop refined.theme_id st.slides_completed refined.slides
        let gevs := gl.2.1
        let gslides := gl.2.2
        let st := { st with slides_completed := gl.1 }
        let pres : GeneratedPresentation :=
          { title := refined.presentation_title
            theme_id := refined.theme_id
            slides := gslides
            total_slides := gslides.length }
        let st := { st with generated_presentation := some pres }
        let t := t ++ gevs
        let st := { st with current_stage := "visual_qa", qa_loops := st.qa_loops + 1 }
        let t := t ++ [.stage_start "visual_qa"]
        if gslides.isEmpty then
          failRun st t "ZeroDivisionError: division by zero"
        else
          let qa_results : List QAResult := gslides.map (fun s =>
            { slide_order := s.order
              score := 95 + ((s.order % 5 : Nat) : Rat)
              issues := []
              passed := true
              iterations := st.qa_loops })
          let avg := (qa_results.map QAResult.score).sum / (qa_results.length : Rat)
          let report : QAReport :=
            { session_id := st.session_id
              slides := qa_results
              average_score := avg
              all_passed := qa_results.all QAResult.passed
              total_iterations := st.qa_loops }
          let st := { st with qa_report := some report }
          let st := { st with status := .completed }
          { final := st, trace := t ++ [.status_set .completed], result := .ok pres }

/-- Progress order on gathered info: presence flags only ever turn on,
fields holding a value keep holding one, and the focus-area list only
grows at the end.  This is the "never regress" contract of the
extractor. -/
def Progresses (a b : GatheredInfo) : Prop :=
  (a.has_title = true → b.has_title = true) ∧
  (a.has_audience = true → b.has_audience = true) ∧
  (a.has_slide_count = true → b.has_slide_count = true) ∧
  (a.has_focus_areas = true → b.has_focus_areas = true) ∧
  (a.has_emphasis_style = true → b.has_emphasis_style = true) ∧
  (a.has_tone = true → b.has_tone = true) ∧
  (a.has_citation_style = true → b.has_citation_style = true) ∧
  (a.has_references_placement = true → b.has_references_placement = true) ∧
  (a.has_theme = true → b.has_theme = true) ∧
  (a.title.isSome = true → b.title.isSome = true) ∧
  (a.audience.isSome = true → b.audience.isSome = true) ∧
  (a.slide_count.isSome = true → b.slide_count.isSome = true) ∧
  (a.emphasis_style.isSome = true → b.emphasis_style.isSome = true) ∧
  (a.tone.isSome = true → b.tone.isSome = true) ∧
  (a.citation_style.isSome = true → b.citation_style.isSome = true) ∧
  (a.references_placement.isSome = true → b.references_placement.isSome = true) ∧
  (a.theme.isSome = true → b.theme.isSome = true) ∧
  List.IsPrefix a.focus_areas b.focus_areas

/-- A gathered-info state whose title requirement is satisfied only through
the delegate-override flag. -/
def delegateTitleInfo : GatheredInfo :=
  { has_audience := true, has_slide_count := true, has_focus_areas := true,
    let_agent_decide_title := true }

/-- A three-slide skeleton with contiguous orders 1, 2, 3 (object ids 0,
1, 2), as produced by `generate_outline`. -/
def reorderExample : LiveSkeleton :=
  { heap := fun n =>
      if n = 0 then { order := 1, title := "Introduction" }
      else if n = 1 then { order := 2, title := "Methods" }
      else { order := 3, title := "Results" }
    slide_ids := [0, 1, 2]
    next_id := 3 }

/-- An approved one-slide skeleton state about to enter generation. -/
def genState1 : FlowState :=
  { session_id := "s"
    status := .outline_approved
    skeleton := some { presentation_title := "T", target_audience := "A",
                       slides := [{ order := 1, title := "Only" }] }
    order_form := some {}
    total_slides := 1
    slides_completed := 0 }

/-- A planner oracle whose parsed response contains two slides. -/
def twoSlidePlanner : GenOracle :=
  { planner_result := .ok (some [{ order := 1, title := "One" }, { order := 2, title := "Two" }])
    render_latex := fun _ => .error "unavailable"
    render_mermaid := fun _ => .error "unavailable" }

/-- An approved two-slide skeleton state about to enter generation. -/
def genState2 : FlowState :=
  { session_id := "s2"
    status := .outline_approved
    skeleton := some { presentation_title := "T2", target_audience := "A2",
                       slides := [{ order := 1, title := "One" }, { order := 2, title := "Two" }] }
    order_form := some {}
    total_slides := 2
    slides_completed := 0 }

/-- A planner oracle whose response has no parsable JSON, forcing the
skeleton fallback. -/
def fallbackPlanner : GenOracle :=
  { planner_result := .ok none
    render_latex := fun _ => .error "unavailable"
    render_mermaid := fun _ => .error "unavailable" }

/-- A session state whose clarification has been confirmed by the user. -/
def confirmedSession : FlowState :=
  { session_id := "c"
    gathered_info := some { confirmation_sent := true, user_confirmed := true } }

/-- A clarifier oracle that would answer with a question. -/
def oracleA : ClarifierOracle :=
  { agent_result := .ok "What audience?", is_confirmation_request := false,
    order_form_like := false, parsed_json_form := none }

/-- A clarifier oracle whose agent call raises. -/
def oracleB : ClarifierOracle :=
  { agent_result := .error "LLM unavailable", is_confirmation_request := false,
    order_form_like := false, parsed_json_form := none }

/-- A completed presentation payload. -/
def presEx : GeneratedPresentation :=
  { title := "T", theme_id := "modern", slides := [], total_slides := 0 }

/-- A completed session holding a presentation. -/
def doneSession : FlowState :=
  { session_id := "d", status := .completed, generated_presentation := some presEx }

/-- An event emitter with a raising listener registered before a working
one. -/
def emitterEx : FlowEventEmitter :=
  { session_id := "s"
    listeners := [fun _ => .error "boom", fun _ => .ok ()] }

theorem FlowStatus.ofVal_val (st : FlowStatus) : FlowStatus.ofVal st.val = some st := by
  cases st <;> rfl

/-- C3: `can_retry(s)` is true exactly when fewer than `MAX_ATTEMPTS = 2`
attempts are recorded for `s`; two recorded attempts (no reset in
between) exhaust the budget; a never-recorded stage can retry; recording
one stage leaves every other stage's count unchanged. -/
theorem retry_budget_contract (b : RetryBudget) (s s' : String) (h : s' ≠ s) :
    (b.can_retry s = true ↔ b.get_attempts s < RetryBudget.MAX_ATTEMPTS)
    ∧ ((b.record_attempt s).record_attempt s).can_retry s = false
    ∧ RetryBudget.new.can_retry s = true
    ∧ (b.record_attempt s).get_attempts s' = b.get_attempts s' := by
  refine ⟨?_, ?_, ?_, ?_⟩
  · simp [RetryBudget.can_retry, RetryBudget.get_attempts]
  · simp [RetryBudget.can_retry, RetryBudget.record_attempt, RetryBudget.MAX_ATTEMPTS]
  · simp [RetryBudget.can_retry, RetryBudget.new, RetryBudget.MAX_ATTEMPTS]
  · simp [RetryBudget.record_attempt, RetryBudget.get_attempts, h]

/-- Witness for C3 at a fresh budget and two distinct stage names. -/
theorem retry_budget_contract_witness :
    (RetryBudget.new.can_retry "refiner" = true ↔
        RetryBudget.new.get_attempts "refiner" < RetryBudget.MAX_ATTEMPTS)
    ∧ ((RetryBudget.new.record_attempt "refiner").record_attempt "refiner").can_retry "refiner" = false
    ∧ RetryBudget.new.can_retry "refiner" = true
    ∧ (RetryBudget.new.record_attempt "refiner").get_attempts "planner"
        = RetryBudget.new.get_attempts "planner" :=
  retry_budget_contract RetryBudget.new "refiner" "planner" (by decide)

/-- C7 counterexample: a state whose four required presence flags are not
all true (`has_title` is false) yet `is_complete_enough()` returns true,
because the delegate-override flag `let_agent_decide_title` also
satisfies the title requirement. -/
theorem is_complete_enough_true_without_title_flag :
    GatheredInfo.is_complete_enough delegateTitleInfo = true
    ∧ delegateTitleInfo.has_title = false := ⟨rfl, rfl⟩

/-- C7 amended: `is_complete_enough()` is true iff `has_audience`,
`has_slide_count` and `has_focus_areas` are true and the title
requirement is met either by `has_title` or by
`let_agent_decide_title`. -/
theorem is_complete_enough_iff (i : GatheredInfo) :
    i.is_complete_enough
      = ((i.has_title || i.let_agent_decide_title)
          && i.has_audience && i.has_slide_count && i.has_focus_areas) := by
  unfold GatheredInfo.is_complete_enough GatheredInfo.get_missing_required
  cases h1 : i.has_title <;> cases h2 : i.let_agent_decide_title <;>
    cases h3 : i.has_audience <;> cases h4 : i.has_slide_count <;>
      cases h5 : i.has_focus_areas <;> simp

/-- C8 counterexample: an existing session that is not completed is
rejected with HTTP status 400, not 409. -/
theorem get_result_pending_is_400 :
    get_result { session_id := "s1" } =
        .httpError 400 "Generation not complete. Status: awaiting_clarification"
    ∧ (400 : Nat) ≠ 409 := ⟨rfl, by decide⟩

/-- C8 amended: for an existing session, `get_result` answers HTTP 400
whenever the status is not Completed, returns the presentation (with the
QA report) when the status is Completed and a presentation is stored, and
answers HTTP 500 when the status is Completed but no presentation is
stored. -/
theorem get_result_spec (s : FlowState) :
    (s.status ≠ FlowStatus.completed →
        get_result s = .httpError 400 ("Generation not complete. Status: " ++ s.status.val))
    ∧ (∀ p, s.status = FlowStatus.completed → s.generated_presentation = some p →
        get_result s = .ok (p, s.qa_report))
    ∧ (s.status = FlowStatus.completed → s.generated_presentation = none →
        get_result s = .httpError 500 "No presentation found") := by
  refine ⟨?_, ?_, ?_⟩
  · intro h; simp [get_result, h]
  · intro p h hp; simp [get_result, h, hp]
  · intro h hp; simp [get_result, h, hp]

/-- Witness for C8 at a completed session holding a presentation. -/
theorem get_result_spec_witness :
    get_result doneSession = .ok (presEx, none) :=
  (get_result_spec doneSession).2.1 presEx rfl rfl

theorem deliverAll_length (ev : FlowEvent) (ls : List (FlowEvent → Except String Unit)) :
    (deliverAll ev ls).length = ls.length := by
  induction ls with
  | nil => rfl
  | cons l rest ih => simp [deliverAll, ih]

theorem deliverAll_getElem (ev : FlowEvent) (ls : List (FlowEvent → Except String Unit))
    (j : Nat) :
    (deliverAll ev ls)[j]? = (ls[j]?).map (fun l =>
      match l ev with
      | .ok _ => Delivery.delivered
      | .error e => Delivery.error_logged e) := by
  induction ls generalizing j with
  | nil => simp [deliverAll]
  | cons l rest ih =>
    cases j with
    | zero => simp [deliverAll]
    | succ n => simp [deliverAll, ih]

/-- C9: `emit` hands the constructed event to every registered listener —
one outcome per listener, position `j` of the outcome list determined by
listener `j` alone, so the loop reaches all listeners in registration
order even when an earlier one raises; a raising listener produces a
logged-error outcome instead of propagating (the return type of the
embedded `emit` is total). -/
theorem emit_dispatches_in_order (em : FlowEventEmitter) (event_type : String)
    (data : List (String × String)) (now : Nat) (j : Nat) :
    ((em.emit event_type data now).2).length = em.listeners.length
    ∧ (em.emit event_type data now).1 =
        { type := event_type, session_id := em.session_id, timestamp := now, data := data }
    ∧ ((em.emit event_type data now).2)[j]? = (em.listeners[j]?).map (fun l =>
        match l (em.emit event_type data now).1 with
        | .ok _ => Delivery.delivered
        | .error e => Delivery.error_logged e) := by
  refine ⟨?_, rfl, ?_⟩
  · simp [FlowEventEmitter.emit, deliverAll_length]
  · exact deliverAll_getElem _ em.listeners j

/-- C2 counterexample: restoring the serialized state of a session with id
"abc" does not reproduce the state — `from_db` reads the session id from
the key `id`, which `to_db_dict` never writes, so a fresh uuid is taken
instead. -/
theorem from_db_regenerates_session_id :
    FlowState.from_db (FlowState.to_db_dict { session_id := "abc" } 0) "fresh" 0
      ≠ some ({ session_id := "abc" } : FlowState) := by decide

/-- C2 amended: the round trip restores the six pipeline-output fields,
the status, the current stage and the `qa_loops` counter exactly, but
replaces the session id with a fresh uuid (the row has no `id` key) and
resets every other field — `slides_completed`, `total_slides`,
`qa_report`, `gathered_info`, the conversation history, `helper_attempts`
and `error_message` — to its default. -/
theorem to_db_from_db_roundtrip (s : FlowState) (f : String) (n n2 : Nat) :
    FlowState.from_db (s.to_db_dict n) f n2 = some
      { session_id := f
        created_at := n2
        updated_at := n2
        order_form := s.order_form
        skeleton := s.skeleton
        planned_content := s.planned_content
        refined_content := s.refined_content
        generated_presentation := s.generated_presentation
        knowledge_base := s.knowledge_base
        status := s.status
        current_stage := s.current_stage
        qa_loops := s.qa_loops } := by
  simp [FlowState.from_db, FlowState.to_db_dict, FlowStatus.ofVal_val]

theorem progresses_refl (i : GatheredInfo) : Progresses i i := by
  simp [Progresses, List.prefix_refl]

theorem progresses_trans {a b c : GatheredInfo}
    (h : Progresses a b) (g : Progresses b c) : Progresses a c := by
  obtain ⟨h1, h2, h3, h4, h5, h6, h7, h8, h9, h10, h11, h12, h13, h14, h15, h16, h17, h18⟩ := h
  obtain ⟨g1, g2, g3, g4, g5, g6, g7, g8, g9, g10, g11, g12, g13, g14, g15, g16, g17, g18⟩ := g
  exact ⟨fun x => g1 (h1 x), fun x => g2 (h2 x), fun x => g3 (h3 x), fun x => g4 (h4 x),
    fun x => g5 (h5 x), fun x => g6 (h6 x), fun x => g7 (h7 x), fun x => g8 (h8 x),
    fun x => g9 (h9 x), fun x => g10 (h10 x), fun x => g11 (h11 x), fun x => g12 (h12 x),
    fun x => g13 (h13 x), fun x => g14 (h14 x), fun x => g15 (h15 x), fun x => g16 (h16 x),
    fun x => g17 (h17 x), h18.trans g18⟩

theorem stepConfirm_ok (m : Msg) (i : GatheredInfo) :
    (stepConfirm m i).confirmation_sent = i.confirmation_sent
    ∧ (stepConfirm m i).user_confirmed = (i.user_confirmed || (i.confirmation_sent && m.confirm_match))
    ∧ Progresses i (stepConfirm m i) := by
  cases hc : (i.confirmation_sent && m.confirm_match) <;>
    simp [stepConfirm, hc, Progresses, List.prefix_refl]

theorem stepDecide_ok (m : Msg) (i : GatheredInfo) :
    (stepDecide m i).confirmation_sent = i.confirmation_sent
    ∧ (stepDecide m i).user_confirmed = i.user_confirmed
    ∧ Progresses i (stepDecide m i) := by
  cases hd : m.decide_match <;> cases h1 : m.mentions_title_or_topic <;>
    cases h2 : m.mentions_theme <;> cases h3 : m.mentions_citation_or_reference <;>
    simp [stepDecide, hd, h1, h2, h3, Progresses, List.prefix_refl]

theorem stepAudience_ok (m : Msg) (i : GatheredInfo) :
    (stepAudience m i).confirmation_sent = i.confirmation_sent
    ∧ (stepAudience m i).user_confirmed = i.user_confirmed
    ∧ Progresses i (stepAudience m i) := by
  cases hp : m.audience_pattern_value <;> cases he : m.audience_explicit_value <;>
    cases hb : i.has_audience <;>
    simp [stepAudience, hp, he, hb, Progresses, List.prefix_refl]

theorem stepSlides_ok (m : Msg) (i : GatheredInfo) :
    (stepSlides m i).confirmation_sent = i.confirmation_sent
    ∧ (stepSlides m i).user_confirmed = i.user_confirmed
    ∧ Progresses i (stepSlides m i) := by
  cases hs : m.slide_count_matches.find? (fun c => 3 ≤ c && c ≤ 50) <;>
    simp [stepSlides, hs, Progresses, List.prefix_refl]

theorem stepCitation_ok (m : Msg) (i : GatheredInfo) :
    (stepCitation m i).confirmation_sent = i.confirmation_sent
    ∧ (stepCitation m i).user_confirmed = i.user_confirmed
    ∧ Progresses i (stepCitation m i) := by
  cases hc : m.citation_style_match <;>
    simp [stepCitation, hc, Progresses, List.prefix_refl]

theorem stepRefs_ok (m : Msg) (i : GatheredInfo) :
    (stepRefs m i).confirmation_sent = i.confirmation_sent
    ∧ (stepRefs m i).user_confirmed = i.user_confirmed
    ∧ Progresses i (stepRefs m i) := by
  cases h1 : m.refs_end_phrases <;> cases h2 : m.refs_each_phrases <;>
    cases h3 : m.mentions_citation_or_reference <;>
    simp [stepRefs, h1, h2, h3, Progresses, List.prefix_refl]

theorem stepEmphasis_ok (m : Msg) (i : GatheredInfo) :
    (stepEmphasis m i).confirmation_sent = i.confirmation_sent
    ∧ (stepEmphasis m i).user_confirmed = i.user_confirmed
    ∧ Progresses i (stepEmphasis m i) := by
  cases h1 : m.emphasis_detailed_words <;> cases h2 : m.emphasis_concise_words <;>
    cases h3 : m.emphasis_visual_words <;>
    simp [stepEmphasis, h1, h2, h3, Progresses, List.prefix_refl]

theorem stepTone_ok (m : Msg) (i : GatheredInfo) :
    (stepTone m i).confirmation_sent = i.confirmation_sent
    ∧ (stepTone m i).user_confirmed = i.user_confirmed
    ∧ Progresses i (stepTone m i) := by
  cases h1 : m.tone_academic_words <;> cases h2 : m.tone_casual_words <;>
    cases h3 : m.tone_technical_words <;> cases h4 : m.tone_persuasive_words <;>
    simp [stepTone, h1, h2, h3, h4, Progresses, List.prefix_refl]

theorem stepTheme_ok (m : Msg) (i : GatheredInfo) :
    (stepTheme m i).confirmation_sent = i.confirmation_sent
    ∧ (stepTheme m i).user_confirmed = i.user_confirmed
    ∧ Progresses i (stepTheme m i) := by
  cases ht : m.theme_pattern_match <;>
    simp [stepTheme, ht, Progresses, List.prefix_refl]

theorem stepTitle_ok (m : Msg) (i : GatheredInfo) :
    (stepTitle m i).confirmation_sent = i.confirmation_sent
    ∧ (stepTitle m i).user_confirmed = i.user_confirmed
    ∧ Progresses i (stepTitle m i) := by
  cases ht : i.has_title <;> cases hd : i.let_agent_decide_title <;>
    simp only [stepTitle, ht, hd, Bool.not_true, Bool.not_false, Bool.false_and,
      Bool.true_and, Bool.and_false, Bool.and_true, if_true, if_false,
      Bool.and_self, ite_true, ite_false]
  case false.false =>
    cases hf : m.topic_matches.find? (fun t => 5 < t.length) with
    | none => simp [Progresses, List.prefix_refl]
    | some topic =>
      by_cases hmem : topic ∈ i.focus_areas <;>
        simp [hmem, Progresses, List.prefix_refl, List.prefix_append]
  all_goals simp [Progresses, List.prefix_refl]

theorem focusStep_ok (i : GatheredInfo) (item : String) :
    (focusStep i item).confirmation_sent = i.confirmation_sent
    ∧ (focusStep i item).user_confirmed = i.user_confirmed
    ∧ Progresses i (focusStep i item) := by
  unfold focusStep
  split <;> simp [Progresses, List.prefix_refl, List.prefix_append]

theorem stepFocus_ok (m : Msg) (i : GatheredInfo) :
    (stepFocus m i).confirmation_sent = i.confirmation_sent
    ∧ (stepFocus m i).user_confirmed = i.user_confirmed
    ∧ Progresses i (stepFocus m i) := by
  unfold stepFocus
  generalize m.focus_area_matches = l
  induction l generalizing i with
  | nil => exact ⟨rfl, rfl, progresses_refl i⟩
  | cons x xs ih =>
    simp only [List.foldl_cons]
    obtain ⟨h1, h2, h3⟩ := focusStep_ok i x
    obtain ⟨g1, g2, g3⟩ := ih (focusStep i x)
    exact ⟨g1.trans h1, g2.trans h2, progresses_trans h3 g3⟩

theorem extract_confirm_and_progress (m : Msg) (i : GatheredInfo) :
    (extract_info_from_message m i).confirmation_sent = i.confirmation_sent
    ∧ (extract_info_from_message m i).user_confirmed
        = (i.user_confirmed || (i.confirmation_sent && m.confirm_match))
    ∧ Progresses i (extract_info_from_message m i) := by
  unfold extract_info_from_message
  have h1 := stepConfirm_ok m i
  have h2 := stepDecide_ok m (stepConfirm m i)
  have h3 := stepAudience_ok m (stepDecide m (stepConfirm m i))
  have h4 := stepSlides_ok m (stepAudience m (stepDecide m (stepConfirm m i)))
  have h5 := stepCitation_ok m (stepSlides m (stepAudience m (stepDecide m (stepConfirm m i))))
  have h6 := stepRefs_ok m (stepCitation m (stepSlides m (stepAudience m (stepDecide m
    (stepConfirm m i)))))
  have h7 := stepEmphasis_ok m (stepRefs m (stepCitation m (stepSlides m (stepAudience m
    (stepDecide m (stepConfirm m i))))))
  have h8 := stepTone_ok m (stepEmphasis m (stepRefs m (stepCitation m (stepSlides m
    (stepAudience m (stepDecide m (stepConfirm m i)))))))
  have h9 := stepTheme_ok m (stepTone m (stepEmphasis m (stepRefs m (stepCitation m
    (stepSlides m (stepAudience m (stepDecide m (stepConfirm m i))))))))
  have h10 := stepTitle_ok m (stepTheme m (stepTone m (stepEmphasis m (stepRefs m
    (stepCitation m (stepSlides m (stepAudience m (stepDecide m (stepConfirm m i)))))))))
  have h11 := stepFocus_ok m (stepTitle m (stepTheme m (stepTone m (stepEmphasis m
    (stepRefs m (stepCitation m (stepSlides m (stepAudience m (stepDecide m
      (stepConfirm m i))))))))))
  refine ⟨?_, ?_, ?_⟩
  · rw [h11.1, h10.1, h9.1, h8.1, h7.1, h6.1, h5.1, h4.1, h3.1, h2.1, h1.1]
  · rw [h11.2.1, h10.2.1, h9.2.1, h8.2.1, h7.2.1, h6.2.1, h5.2.1, h4.2.1, h3.2.1, h2.2.1,
      h1.2.1]
  · exact progresses_trans h1.2.2 (progresses_trans h2.2.2 (progresses_trans h3.2.2
      (progresses_trans h4.2.2 (progresses_trans h5.2.2 (progresses_trans h6.2.2
        (progresses_trans h7.2.2 (progresses_trans h8.2.2 (progresses_trans h9.2.2
          (progresses_trans h10.2.2 h11.2.2)))))))))

/-- C4: message extraction can set `user_confirmed` only when
`confirmation_sent` was already true when the message was processed — its
new value is exactly `old ∨ (confirmation_sent ∧ affirmative match)`, so
an affirmative message before any confirmation request leaves
`user_confirmed` unchanged; extraction never changes `confirmation_sent`;
and `is_fully_confirmed()` is the conjunction of the two flags. -/
theorem confirmation_detection_gated (m : Msg) (i : GatheredInfo) :
    (extract_info_from_message m i).user_confirmed
        = (i.user_confirmed || (i.confirmation_sent && m.confirm_match))
    ∧ (extract_info_from_message m i).confirmation_sent = i.confirmation_sent
    ∧ i.is_fully_confirmed = (i.confirmation_sent && i.user_confirmed) :=
  ⟨(extract_confirm_and_progress m i).2.1, (extract_confirm_and_progress m i).1, rfl⟩

/-- C5: extraction never regresses accumulated state — every presence flag
that was true stays true, every field holding a value still holds one
(last-write-wins), and the focus-area list is only ever extended at the
end (its old elements are a prefix of the new list, so none is lost). -/
theorem extraction_never_regresses (m : Msg) (i : GatheredInfo) :
    Progresses i (extract_info_from_message m i) :=
  (extract_confirm_and_progress m i).2.2

/-- C10: when the gathered info has `confirmation_sent` and
`user_confirmed` both true, `process_clarification` completes on the
auto-complete path — the result does not depend on the clarifier-agent
oracle at all — returning `complete = true`, setting the status to
`clarification_complete`, and storing the `OrderForm` built by
`confirmed_order_form`, in which every ungathered field takes its fixed
default (title "Untitled Presentation", audience "General audience", 10
slides, tone "academic", emphasis "detailed", citation style "apa",
references on the last slide, theme "modern", speaker notes on) and
`is_complete` is true. -/
theorem process_clarification_confirmed (st : FlowState) (m : Msg) (u : String)
    (o o' : ClarifierOracle) (now : Nat)
    (h1 : (st.gathered_info.getD {}).confirmation_sent = true)
    (h2 : (st.gathered_info.getD {}).user_confirmed = true) :
    process_clarification st m u o now = process_clarification st m u o' now
    ∧ process_clarification st m u o now = .ok
        ({ st with
            gathered_info := some (extract_info_from_message m (st.gathered_info.getD {}))
            conversation_history := st.conversation_history
              ++ [mkMessage "user" u now]
              ++ [mkMessage "assistant" "**Requirements confirmed!** I\x27m now ready to generate your presentation outline." now]
            order_form := some (confirmed_order_form
              (extract_info_from_message m (st.gathered_info.getD {})))
            status := .clarification_complete },
          { complete := true
            order_form := some (confirmed_order_form
              (extract_info_from_message m (st.gathered_info.getD {})))
            message := some "Requirements confirmed! Ready to generate your presentation." })
    ∧ (∀ info : GatheredInfo,
        (info.title = none → (confirmed_order_form info).presentation_title = "Untitled Presentation")
        ∧ (info.audience = none → (confirmed_order_form info).target_audience = "General audience")
        ∧ (info.slide_count = none → (confirmed_order_form info).target_slides = 10)
        ∧ (info.tone = none → (confirmed_order_form info).tone = "academic")
        ∧ (info.emphasis_style = none → (confirmed_order_form info).emphasis_style = "detailed")
        ∧ (info.citation_style = none → (confirmed_order_form info).citation_style = "apa")
        ∧ (info.references_placement = none →
            (confirmed_order_form info).references_placement = "last_slide")
        ∧ (info.theme = none → (confirmed_order_form info).theme_id = "modern")
        ∧ (info.include_speaker_notes = none →
            (confirmed_order_form info).include_speaker_notes = true)
        ∧ (confirmed_order_form info).is_complete = true) := by
  have hext := extract_confirm_and_progress m (st.gathered_info.getD {})
  have hf : (extract_info_from_message m (st.gathered_info.getD {})).is_fully_confirmed = true := by
    simp [GatheredInfo.is_fully_confirmed, hext.1, hext.2.1, h1, h2]
  refine ⟨?_, ?_, ?_⟩
  · simp [process_clarification, hf]
  · simp [process_clarification, hf]
  · intro info
    refine ⟨?_, ?_, ?_, ?_, ?_, ?_, ?_, ?_, ?_, ?_⟩ <;>
      first
        | (intro h; simp [confirmed_order_form, pyOrStr, pyOrNat, h])
        | rfl

/-- Witness for C10: a confirmed session gives the same outcome under a
question-answering oracle and under a raising oracle. -/
theorem process_clarification_confirmed_witness :
    process_clarification confirmedSession {} "looks good" oracleA 0
      = process_clarification confirmedSession {} "looks good" oracleB 0 :=
  (process_clarification_confirmed confirmedSession {} "looks good" oracleA oracleB 0
    rfl rfl).1

/-- C1 (evaluation at the failing input): on a canonical skeleton with
orders `[1, 2, 3]`, the single modification `reorder [3, 1, 2]` — an
explicit total ordering of the existing order values — leaves the slide
list as objects `[2, 0, 0]`: the slide with id 1 is silently dropped and
the slide with id 0 is aliased twice, so after renumbering the order
values read `[1, 3, 3]` instead of `[1, 2, 3]`. -/
theorem approve_outline_reorder_corrupts :
    (approve_outline_mods reorderExample [OutlineMod.reorder [3, 1, 2]]).orders = [1, 3, 3]
    ∧ (approve_outline_mods reorderExample [OutlineMod.reorder [3, 1, 2]]).slide_ids = [2, 0, 0] := by
  constructor <;> rfl

theorem generator_loop_slide_done_bound (th : String) (c0 : Nat) (l : List RefinedSlide) :
    ∀ ord c, TraceEv.slide_done ord c ∈ (generator_loop th c0 l).2.1 →
      c0 < c ∧ c ≤ c0 + l.length := by
  induction l generalizing c0 with
  | nil => intro ord c h; simp [generator_loop] at h
  | cons r rest ih =>
    intro ord c h
    simp only [generator_loop, List.mem_cons] at h
    rcases h with h | h
    · simp only [TraceEv.slide_done.injEq] at h
      obtain ⟨-, h2⟩ := h
      simp only [List.length_cons]
      omega
    · obtain ⟨a, b⟩ := ih (c0 + 1) ord c h
      simp only [List.length_cons]
      omega

theorem generator_loop_events_slide_done (th : String) (c0 : Nat) (l : List RefinedSlide) :
    ∀ ev ∈ (generator_loop th c0 l).2.1, ∃ ord c, ev = TraceEv.slide_done ord c := by
  induction l generalizing c0 with
  | nil => simp [generator_loop]
  | cons r rest ih =>
    intro ev h
    simp only [generator_loop, List.mem_cons] at h
    rcases h with h | h
    · exact ⟨r.order, c0 + 1, h⟩
    · exact ih (c0 + 1) ev h

theorem last_pos_of_getElem? {α : Type} {pre : List α} {e a : α} {i : Nat}
    (hnot : a ∉ pre) (h : (pre ++ [e])[i]? = some a) : a = e ∧ i = pre.length := by
  rcases Nat.lt_or_ge i pre.length with hlt | hge
  · rw [List.getElem?_append_left hlt] at h
    exact absurd (List.getElem?_mem h) hnot
  · rcases Nat.lt_or_ge i (pre.length + 1) with hlt2 | hge2
    · have hip : i = pre.length := by omega
      subst hip
      rw [List.getElem?_concat_length] at h
      cases h
      exact ⟨rfl, rfl⟩
    · have hlen : (pre ++ [e]).length ≤ i := by simp; omega
      rw [List.getElem?_eq_none hlen] at h
      cases h

theorem shape_slide_done_bound (total : Nat) (pre : List TraceEv) (last : FlowStatus)
    (t : List TraceEv) (htr : t = pre ++ [TraceEv.status_set last])
    (hpre : ∀ ord c, TraceEv.slide_done ord c ∈ pre → c ≤ total) :
    ∀ ord c, TraceEv.slide_done ord c ∈ t → c ≤ total := by
  subst htr
  intro ord c hmem
  rcases List.mem_append.mp hmem with h | h
  · exact hpre ord c h
  · simp at h

theorem shape_no_done_after_completed (pre : List TraceEv) (last : FlowStatus)
    (t : List TraceEv) (htr : t = pre ++ [TraceEv.status_set last])
    (hnot : TraceEv.status_set FlowStatus.completed ∉ pre) :
    ∀ i j : Nat, i < j → t[i]? = some (TraceEv.status_set FlowStatus.completed) →
      ∀ ord c, t[j]? ≠ some (TraceEv.slide_done ord c) := by
  subst htr
  intro i j hij hi ord c hj
  obtain ⟨-, hipos⟩ := last_pos_of_getElem? hnot hi
  have hjlen : (pre ++ [TraceEv.status_set last]).length ≤ j := by simp; omega
  rw [List.getElem?_eq_none hjlen] at hj
  cases hj

theorem parse_planned_content_length (parsed : Option (List PlannedSlide)) (sk : Skeleton)
    (of : OrderForm) (h : ∀ ps, parsed = some ps → ps.length ≤ sk.slides.length) :
    (parse_planned_content parsed sk of).slides.length ≤ sk.slides.length := by
  rcases parsed with _ | ps
  · simp [parse_planned_content]
  · simpa [parse_planned_content] using h ps rfl

/-- C6 counterexample: entering generation with one approved skeleton
slide (`total_slides = 1`, `slides_completed = 0`) but a planner response
that parses to two slides, the counter reaches 2 — the trace contains a
slide completion with `slides_completed = 2 > total_slides = 1` — because
the pipeline generates one slide per planner-output slide without
checking the approved count. -/
theorem slides_completed_exceeds_total :
    genState1.total_slides = 1
    ∧ (run_generation genState1 twoSlidePlanner).trace =
        [TraceEv.status_set .generating, TraceEv.stage_start "planner",
         TraceEv.stage_start "refiner", TraceEv.stage_start "generator",
         TraceEv.slide_done 1 1, TraceEv.slide_done 2 2,
         TraceEv.stage_start "visual_qa", TraceEv.status_set .completed]
    ∧ (run_generation genState1 twoSlidePlanner).final.slides_completed = 2 := by
  refine ⟨rfl, ?_, ?_⟩ <;> rfl

/-- C6 amended: under the claim's entry conditions (status
OutlineApproved, `slides_completed = 0`, `total_slides` equal to the
number of approved skeleton slides): first, provided the planner output
actually used contains at most `total_slides` slides — in particular
whenever the planner JSON fails to parse and the skeleton fallback is
used — every per-slide completion in the run's trace carries a counter
value at most `total_slides`; and second, for every planner oracle, with
no proviso on its output, the status is set to Completed only after all
per-slide generation steps, never before one. -/
theorem run_generation_bounded (st : FlowState) (o : GenOracle) (sk : Skeleton) (of : OrderForm)
    (hst : st.status = FlowStatus.outline_approved)
    (hsc : st.slides_completed = 0)
    (hsk : st.skeleton = some sk)
    (hof : st.order_form = some of)
    (htot : st.total_slides = sk.slides.length) :
    ((∀ ps, o.planner_result = Except.ok (some ps) → ps.length ≤ sk.slides.length) →
      ∀ ord c, TraceEv.slide_done ord c ∈ (run_generation st o).trace → c ≤ st.total_slides)
    ∧ (∀ i j : Nat, i < j →
        ((run_generation st o).trace)[i]? = some (TraceEv.status_set FlowStatus.completed) →
        ∀ ord c, ((run_generation st o).trace)[j]? ≠ some (TraceEv.slide_done ord c)) := by
  rcases hpr : o.planner_result with e | parsed
  · have htr : (run_generation st o).trace =
        [TraceEv.status_set .generating, TraceEv.stage_start "planner"]
          ++ [TraceEv.status_set .failed] := by
      simp [run_generation, hst, hsk, hof, hpr, failRun]
    constructor
    · intro _
      exact shape_slide_done_bound st.total_slides _ .failed _ htr
        (by intro ord c h; simp at h)
    · exact shape_no_done_after_completed _ .failed _ htr (by simp)
  · have hpre_bound :
        (∀ ps, (Except.ok parsed : Except String (Option (List PlannedSlide)))
            = Except.ok (some ps) → ps.length ≤ sk.slides.length) →
        ∀ ord c, TraceEv.slide_done ord c ∈
        (TraceEv.status_set FlowStatus.generating :: TraceEv.stage_start "planner" ::
          TraceEv.stage_start "refiner" :: TraceEv.stage_start "generator" ::
          ((generator_loop (parse_planned_content parsed sk of).theme_id 0
            (List.map (refine_slide o) (parse_planned_content parsed sk of).slides)).2.1
            ++ [TraceEv.stage_start "visual_qa"])) → c ≤ st.total_slides := by
      intro hbound ord c h
      have hplen : (parse_planned_content parsed sk of).slides.length ≤ sk.slides.length :=
        parse_planned_content_length parsed sk of (fun ps hps => hbound ps (by rw [hps]))
      simp only [List.mem_cons, List.mem_append, List.mem_singleton] at h
      rcases h with h | h | h | h | h | h <;> first
        | (exfalso; exact absurd h (by simp))
        | skip
      case _ =>
        obtain ⟨-, hb⟩ := generator_loop_slide_done_bound _ _ _ ord c h
        rw [htot]
        simp only [List.length_map] at hb
        omega
    have hpre_not : TraceEv.status_set FlowStatus.completed ∉
        (TraceEv.status_set FlowStatus.generating :: TraceEv.stage_start "planner" ::
          TraceEv.stage_start "refiner" :: TraceEv.stage_start "generator" ::
          ((generator_loop (parse_planned_content parsed sk of).theme_id 0
            (List.map (refine_slide o) (parse_planned_content parsed sk of).slides)).2.1
            ++ [TraceEv.stage_start "visual_qa"])) := by
      intro h
      simp only [List.mem_cons, List.mem_append, List.mem_singleton] at h
      rcases h with h | h | h | h | h | h
      · simp at h
      · simp at h
      · simp at h
      · simp at h
      · obtain ⟨ord, c, hev⟩ := generator_loop_events_slide_done _ _ _ _ h
        simp at hev
      · simp at h
    by_cases hemp : ((generator_loop (parse_planned_content parsed sk of).theme_id 0
        (List.map (refine_slide o) (parse_planned_content parsed sk of).slides)).2.2).isEmpty
    · have htr : (run_generation st o).trace =
          (TraceEv.status_set FlowStatus.generating :: TraceEv.stage_start "planner" ::
            TraceEv.stage_start "refiner" :: TraceEv.stage_start "generator" ::
            ((generator_loop (parse_planned_content parsed sk of).theme_id 0
              (List.map (refine_slide o) (parse_planned_content parsed sk of).slides)).2.1
              ++ [TraceEv.stage_start "visual_qa"])) ++ [TraceEv.status_set .failed] := by
        simp [run_generation, hst, hsk, hof, hpr, hsc, hemp, failRun]
      exact ⟨fun hbound => shape_slide_done_bound st.total_slides _ .failed _ htr
          (hpre_bound hbound),
        shape_no_done_after_completed _ .failed _ htr hpre_not⟩
    · have htr : (run_generation st o).trace =
          (TraceEv.status_set FlowStatus.generating :: TraceEv.stage_start "planner" ::
            TraceEv.stage_start "refiner" :: TraceEv.stage_start "generator" ::
            ((generator_loop (parse_planned_content parsed sk of).theme_id 0
              (List.map (refine_slide o) (parse_planned_content parsed sk of).slides)).2.1
              ++ [TraceEv.stage_start "visual_qa"])) ++ [TraceEv.status_set .completed] := by
        simp [run_generation, hst, hsk, hof, hpr, hsc, hemp, failRun]
      exact ⟨fun hbound => shape_slide_done_bound st.total_slides _ .completed _ htr
          (hpre_bound hbound),
        shape_no_done_after_completed _ .completed _ htr hpre_not⟩

/-- Witness for C6 at a two-slide approved skeleton with the fallback
planner path: the completion counter value 2 observed in the trace is
within `total_slides`. -/
theorem run_generation_bounded_witness :
    (2 : Nat) ≤ genState2.total_slides :=
  (run_generation_bounded genState2 fallbackPlanner
    { presentation_title := "T2", target_audience := "A2",
      slides := [{ order := 1, title := "One" }, { order := 2, title := "Two" }] } {}
    rfl rfl rfl rfl rfl).1 (fun ps hps => by simp [fallbackPlanner] at hps) 2 2 (by decide)

end Sanko
